import Mathlib

/-!
Shallow embedding of `server.py`, a FastAPI health-tracking backend backed by
a MongoDB document store.  Numbers that Python holds as floats are modelled
as rationals (`ℚ`); the document store is a record of three lists (insertion
order = Mongo natural order); nondeterministic inputs of the handlers (the
server clock's date, generated uuids, timestamps, the random index of
`random.choice`) are passed as explicit parameters.  Fallible handlers return
an `Except` paired with the resulting store, so that frame conditions
("the store is unchanged") are statable.
-/

namespace MeuApp

set_option maxRecDepth 8000

/-- Floor of a rational, computed from its numerator and denominator
(`Int.fdiv` rounds toward negative infinity; `q.den > 0`). -/
def ratFloor (q : ℚ) : ℤ := Int.fdiv q.num (q.den : ℤ)

/-- Round a rational to the nearest integer, ties to even — the behaviour of
Python's builtin `round` (banker's rounding). -/
def roundHalfEven (q : ℚ) : ℤ :=
  let f := ratFloor q
  let r := q - (f : ℚ)
  if r < 1/2 then f
  else if (1 : ℚ)/2 < r then f + 1
  else if f % 2 = 0 then f else f + 1

/-- Python's `round(q, d)`: round to `d` decimal places, ties to even. -/
def roundTo (d : ℕ) (q : ℚ) : ℚ := (roundHalfEven (q * 10 ^ d) : ℚ) / 10 ^ d

/-- The `User` document (model `User` in `server.py`).  `created_at` is the
ISO-8601 serialisation stored by `create_user`; it is kept as an opaque
string. -/
structure User where
  id : String
  name : String
  age : Int
  weight : ℚ
  height : ℚ
  sex : String
  gym_attendance : Bool
  goal_weight : Option ℚ
  created_at : String
deriving DecidableEq

/-- Request body of POST/PUT `/user` (model `UserCreate`). -/
structure UserCreate where
  name : String
  age : Int
  weight : ℚ
  height : ℚ
  sex : String
  gym_attendance : Bool
  goal_weight : Option ℚ
deriving DecidableEq

/-- The `WaterLog` document. -/
structure WaterLog where
  id : String
  user_id : String
  amount : ℚ
  date : String
  timestamp : String
deriving DecidableEq

/-- Request body of POST `/water` (model `WaterLogCreate`). -/
structure WaterLogCreate where
  user_id : String
  amount : ℚ
deriving DecidableEq

/-- The `ProgressLog` document. -/
structure ProgressLog where
  id : String
  user_id : String
  weight : ℚ
  date : String
  timestamp : String
deriving DecidableEq

/-- Request body of POST `/progress` (model `ProgressLogCreate`). -/
structure ProgressLogCreate where
  user_id : String
  weight : ℚ
deriving DecidableEq

/-- The document store `db`: collections `users`, `water_logs`,
`progress_logs`, each a list in insertion order. -/
structure Store where
  users : List User
  water_logs : List WaterLog
  progress_logs : List ProgressLog
deriving DecidableEq

/-- `fastapi.HTTPException`. -/
structure HTTPError where
  status_code : Nat
  detail : String
deriving DecidableEq

/-- Mongo's `find_one({"id": user_id})`: first document whose `id` field
matches. -/
def findUser (s : Store) (user_id : String) : Option User :=
  s.users.find? (fun u => u.id == user_id)

/-- Mongo's `update_one(filter, {"$set": ...})`: rewrite the first element
satisfying the filter, leave the rest alone. -/
def updateFirst (p : α → Bool) (f : α → α) : List α → List α
  | [] => []
  | x :: xs => if p x then f x :: xs else x :: updateFirst p f xs

/-- The `$set` document built by `update_user`: `user_input.model_dump()`
replaces the seven `UserCreate` fields; `id` and `created_at` are not keys of
the update and stay as stored. -/
def applyUpdate (u : User) (inp : UserCreate) : User :=
  { u with
    name := inp.name
    age := inp.age
    weight := inp.weight
    height := inp.height
    sex := inp.sex
    gym_attendance := inp.gym_attendance
    goal_weight := inp.goal_weight }

/-- Handler `get_user` (GET `/user/{user_id}`): 404 when absent; the
str→datetime normalisation of `created_at` is the identity on the stored
string. -/
def get_user (s : Store) (user_id : String) : Except HTTPError User × Store :=
  match findUser s user_id with
  | none => (.error ⟨404, "User not found"⟩, s)
  | some u => (.ok u, s)

/-- Handler `update_user` (PUT `/user/{user_id}`): 404 when absent, else
`$set` the mutable fields on the first matching document and return the
document re-read from the store.  The re-read cannot fail (the 500 branch
is the model of the Python `TypeError` that would follow), which the
theorems prove. -/
def update_user (s : Store) (user_id : String) (inp : UserCreate) :
    Except HTTPError User × Store :=
  match findUser s user_id with
  | none => (.error ⟨404, "User not found"⟩, s)
  | some _ =>
    let users' := updateFirst (fun u => u.id == user_id) (fun u => applyUpdate u inp) s.users
    let s' : Store := { s with users := users' }
    match users'.find? (fun u => u.id == user_id) with
    | some u' => (.ok u', s')
    | none => (.error ⟨500, "Internal Server Error"⟩, s')

/-- Handler `log_water` (POST `/water`): builds a `WaterLog` whose `date` is
the server's current UTC day and inserts it; `today`, the generated uuid and
the timestamp are explicit parameters.  No user-existence check. -/
def log_water (s : Store) (inp : WaterLogCreate) (today gen_id ts : String) :
    WaterLog × Store :=
  let w : WaterLog := ⟨gen_id, inp.user_id, inp.amount, today, ts⟩
  (w, { s with water_logs := s.water_logs ++ [w] })

/-- The Mongo filter of `get_water_logs`: match on `user_id` and `date`. -/
def waterMatch (user_id date : String) (l : WaterLog) : Bool :=
  l.user_id == user_id && l.date == date

/-- Handler `get_water_logs` (GET `/water/{user_id}?date=`): date defaults to
the server's today; `to_list(1000)` keeps the first 1000 matches; the
timestamp normalisation is the identity here. -/
def get_water_logs (s : Store) (user_id : String) (date : Option String)
    (today : String) : List WaterLog × Store :=
  let d := date.getD today
  ((s.water_logs.filter (waterMatch user_id d)).take 1000, s)

/-- Response of GET `/water/calculate/{user_id}`. -/
structure WaterGoalResponse where
  user_id : String
  daily_goal_ml : ℚ
  daily_goal_liters : ℚ
deriving DecidableEq

/-- Handler `calculate_water_goal`: 404 when the user is absent, else
35 ml × body weight, litres rounded to 2 decimals. -/
def calculate_water_goal (s : Store) (user_id : String) :
    Except HTTPError WaterGoalResponse × Store :=
  match findUser s user_id with
  | none => (.error ⟨404, "User not found"⟩, s)
  | some u =>
    let water_goal := u.weight * 35
    (.ok ⟨user_id, water_goal, roundTo 2 (water_goal / 1000)⟩, s)

/-- One exercise row of a workout routine. -/
structure Exercise where
  name : String
  sets : String
  rest : String
deriving DecidableEq

/-- One day of a workout routine. -/
structure RoutineDay where
  day : String
  focus : String
  exercises : List Exercise
deriving DecidableEq

/-- A workout plan: the gym dict carries a `cardio` key, the home dict a
`notes` key; both are optional fields here. -/
structure WorkoutPlan where
  type : String
  routine : List RoutineDay
  cardio : Option String
  notes : Option String
deriving DecidableEq

/-- The hard-coded gym plan of `get_workouts` (`user['gym_attendance']`
truthy). -/
def gymWorkouts : WorkoutPlan :=
  { type := "Academia"
    routine :=
      [ { day := "Segunda-feira"
          focus := "Peito e Tríceps"
          exercises :=
            [ ⟨"Supino Reto", "4x10", "60s"⟩
            , ⟨"Supino Inclinado", "3x12", "60s"⟩
            , ⟨"Crucifixo", "3x12", "45s"⟩
            , ⟨"Tríceps Pulley", "3x15", "45s"⟩
            , ⟨"Tríceps Testa", "3x12", "45s"⟩ ] }
      , { day := "Quarta-feira"
          focus := "Costas e Bíceps"
          exercises :=
            [ ⟨"Puxada Frontal", "4x10", "60s"⟩
            , ⟨"Remada Curvada", "3x12", "60s"⟩
            , ⟨"Pullover", "3x12", "45s"⟩
            , ⟨"Rosca Direta", "3x12", "45s"⟩
            , ⟨"Rosca Martelo", "3x12", "45s"⟩ ] }
      , { day := "Sexta-feira"
          focus := "Pernas e Ombros"
          exercises :=
            [ ⟨"Agachamento", "4x12", "90s"⟩
            , ⟨"Leg Press", "3x15", "60s"⟩
            , ⟨"Cadeira Extensora", "3x12", "45s"⟩
            , ⟨"Desenvolvimento", "4x10", "60s"⟩
            , ⟨"Elevação Lateral", "3x15", "45s"⟩ ] } ]
    cardio := some "20-30 min após treino ou dias alternados"
    notes := none }

/-- The hard-coded home plan of `get_workouts` (`gym_attendance` falsy). -/
def homeWorkouts : WorkoutPlan :=
  { type := "Casa (Funcional)"
    routine :=
      [ { day := "Segunda/Quarta/Sexta"
          focus := "Corpo Inteiro"
          exercises :=
            [ ⟨"Flexões", "3x12", "45s"⟩
            , ⟨"Agachamento Livre", "4x15", "45s"⟩
            , ⟨"Prancha", "3x45s", "30s"⟩
            , ⟨"Afundo", "3x12 cada perna", "45s"⟩
            , ⟨"Burpees", "3x10", "60s"⟩
            , ⟨"Mountain Climbers", "3x20", "45s"⟩ ] }
      , { day := "Terça/Quinta"
          focus := "Cardio + Core"
          exercises :=
            [ ⟨"Polichinelos", "3x30", "30s"⟩
            , ⟨"Abdominal", "3x20", "30s"⟩
            , ⟨"Abdominal Bicicleta", "3x20", "30s"⟩
            , ⟨"Prancha Lateral", "3x30s cada lado", "30s"⟩
            , ⟨"High Knees", "3x30s", "30s"⟩ ] } ]
    cardio := none
    notes := some "Sempre aqueça por 5 minutos antes de começar" }

/-- Handler `get_workouts` (GET `/workouts/{user_id}`): 404 when the user is
absent, else one of the two fixed plans keyed by `gym_attendance`. -/
def get_workouts (s : Store) (user_id : String) :
    Except HTTPError WorkoutPlan × Store :=
  match findUser s user_id with
  | none => (.error ⟨404, "User not found"⟩, s)
  | some u => (.ok (if u.gym_attendance then gymWorkouts else homeWorkouts), s)

/-- Handler `log_progress` (POST `/progress`): append a `ProgressLog` dated
with the server's today. -/
def log_progress (s : Store) (inp : ProgressLogCreate) (today gen_id ts : String) :
    ProgressLog × Store :=
  let p : ProgressLog := ⟨gen_id, inp.user_id, inp.weight, today, ts⟩
  (p, { s with progress_logs := s.progress_logs ++ [p] })

/-- Insert a progress log into a list sorted by `date` (ascending), keeping
already-present equal dates first. -/
def insertByDate (x : ProgressLog) : List ProgressLog → List ProgressLog
  | [] => [x]
  | y :: ys => if x.date < y.date then x :: y :: ys else y :: insertByDate x ys

/-- Mongo's `.sort("date", 1)`: stable ascending sort by the `date` field,
modelled as insertion sort. -/
def sortByDate : List ProgressLog → List ProgressLog
  | [] => []
  | x :: xs => insertByDate x (sortByDate xs)

/-- Handler `get_progress` (GET `/progress/{user_id}`): all logs of the user
sorted by date ascending, first 1000 only (`to_list(1000)`). -/
def get_progress (s : Store) (user_id : String) : List ProgressLog × Store :=
  ((sortByDate (s.progress_logs.filter (fun l => l.user_id == user_id))).take 1000, s)

/-- Response of GET `/bmi/{user_id}`. -/
structure BmiResponse where
  user_id : String
  bmi : ℚ
  status : String
  color : String
deriving DecidableEq

/-- The unrounded BMI the handler computes: `weight / (height/100)**2`.
Rational division by zero yields 0 in the model; Python would raise, so
theorems only speak of `height > 0`. -/
def bmiOf (u : User) : ℚ := u.weight / (u.height / 100) ^ 2

/-- Handler `calculate_bmi` (GET `/bmi/{user_id}`): 404 when the user is
absent, else the BMI rounded to 1 decimal and the status/color from the
if/elif chain on the unrounded value. -/
def calculate_bmi (s : Store) (user_id : String) :
    Except HTTPError BmiResponse × Store :=
  match findUser s user_id with
  | none => (.error ⟨404, "User not found"⟩, s)
  | some u =>
    let bmi := bmiOf u
    let sc : String × String :=
      if bmi < 18.5 then ("Baixo peso", "#3B82F6")
      else if 18.5 ≤ bmi ∧ bmi < 25 then ("Peso normal", "#10B981")
      else if 25 ≤ bmi ∧ bmi < 30 then ("Sobrepeso", "#F59E0B")
      else ("Obesidade", "#EF4444")
    (.ok ⟨user_id, roundTo 1 bmi, sc.1, sc.2⟩, s)

/-- Response of GET `/motivation`. -/
structure MotivationResponse where
  message : String
deriving DecidableEq

/-- The fixed pool of motivational messages in `get_motivation`. -/
def messages : List String :=
  [ "Você está indo bem! Continue assim!"
  , "Não desista hoje! Cada passo conta."
  , "Seu corpo agradece cada escolha saudável."
  , "Acredite em si mesmo. Você consegue!"
  , "Pequenos progressos diários levam a grandes resultados."
  , "Você é mais forte do que pensa!"
  , "Mantenha o foco no seu objetivo."
  , "Cada dia é uma nova oportunidade."
  , "Sua saúde é seu maior tesouro."
  , "Consistência é a chave do sucesso!" ]

/-- Handler `get_motivation` (GET `/motivation`): `random.choice(messages)`,
with the random draw made explicit as an index into the pool. -/
def get_motivation (choice : Fin messages.length) : MotivationResponse :=
  ⟨messages.get choice⟩

/-- A route of a FastAPI application, as (HTTP method, path). -/
structure RouteEntry where
  method : String
  path : String
deriving DecidableEq

/-- The observable registration state of a `FastAPI()` instance: its routes,
its middleware stack and its shutdown hooks. -/
structure AppModel where
  routes : List RouteEntry
  middlewares : List String
  on_shutdown : List String
deriving DecidableEq

/-- A fresh `FastAPI()` instance: nothing registered. -/
def FastAPI_new : AppModel := ⟨[], [], []⟩

/-- The routes collected on `api_router = APIRouter(prefix="/api")` by the
decorated handlers, in source order. -/
def api_router_routes : List RouteEntry :=
  [ ⟨"POST", "/api/user"⟩
  , ⟨"GET", "/api/user/\x7buser_id\x7d"⟩
  , ⟨"PUT", "/api/user/\x7buser_id\x7d"⟩
  , ⟨"POST", "/api/water"⟩
  , ⟨"GET", "/api/water/\x7buser_id\x7d"⟩
  , ⟨"GET", "/api/water/calculate/\x7buser_id\x7d"⟩
  , ⟨"GET", "/api/meals"⟩
  , ⟨"GET", "/api/workouts/\x7buser_id\x7d"⟩
  , ⟨"POST", "/api/progress"⟩
  , ⟨"GET", "/api/progress/\x7buser_id\x7d"⟩
  , ⟨"GET", "/api/bmi/\x7buser_id\x7d"⟩
  , ⟨"GET", "/api/motivation"⟩ ]

/-- `app.include_router(router)`. -/
def include_router (a : AppModel) (rs : List RouteEntry) : AppModel :=
  { a with routes := a.routes ++ rs }

/-- `app.add_middleware(...)`. -/
def add_middleware (a : AppModel) (m : String) : AppModel :=
  { a with middlewares := m :: a.middlewares }

/-- `@app.on_event("shutdown")`. -/
def on_event_shutdown (a : AppModel) (h : String) : AppModel :=
  { a with on_shutdown := a.on_shutdown ++ [h] }

/-- `@app.get(path)` and similar route decorators. -/
def add_api_route (a : AppModel) (m p : String) : AppModel :=
  { a with routes := a.routes ++ [⟨m, p⟩] }

/-- The first `FastAPI()` object of the module after all registrations on it
(lines 23-415): the api router, the CORS middleware, the shutdown hook. -/
def app_before_rebind : AppModel :=
  on_event_shutdown
    (add_middleware (include_router FastAPI_new api_router_routes) "CORSMiddleware")
    "shutdown_db_client"

/-- The HTML body returned by the final `home` handler. -/
def home : String := "<h1>🚀 API do Meu App está funcionando!</h1>"

/-- The module-level name `app` at the end of evaluation: line 420 rebinds it
to a second, fresh `FastAPI()` on which only `@app.get("/")` is registered,
discarding `app_before_rebind`. -/
def app : AppModel := add_api_route FastAPI_new "GET" "/"

/-- Decidable equality of handler results, for concrete evaluation. -/
instance instDecEqExcept {ε α : Type} [DecidableEq ε] [DecidableEq α] :
    DecidableEq (Except ε α)
  | Except.error e, Except.error f =>
    if h : e = f then isTrue (congrArg Except.error h)
    else isFalse (fun hc => h (Except.error.inj hc))
  | Except.error _, Except.ok _ => isFalse (fun hc => Except.noConfusion hc)
  | Except.ok _, Except.error _ => isFalse (fun hc => Except.noConfusion hc)
  | Except.ok a, Except.ok b =>
    if h : a = b then isTrue (congrArg Except.ok h)
    else isFalse (fun hc => h (Except.ok.inj hc))

attribute [local semireducible] Rat.ofScientific Rat.mul Rat.add Rat.sub Rat.inv

/-- A store with no documents at all. -/
def emptyStore : Store := ⟨[], [], []⟩

/-- Fixture: the user of the spec's BMI scenario (weight 70, height 175). -/
def user70 : User :=
  ⟨"u1", "Ana", 30, 70, 175, "feminino", true, none, "2026-01-01T00:00:00+00:00"⟩

/-- Fixture store holding only `user70`. -/
def store70 : Store := ⟨[user70], [], []⟩

/-- Fixture: the user of the spec's water scenario (weight 80). -/
def user80 : User :=
  ⟨"u2", "Bruno", 28, 80, 180, "masculino", false, some 75, "2026-01-02T00:00:00+00:00"⟩

/-- Fixture store holding only `user80`. -/
def store80 : Store := ⟨[user80], [], []⟩

/-- Length of an insertion step. -/
theorem length_insertByDate (x : ProgressLog) :
    ∀ l : List ProgressLog, (insertByDate x l).length = l.length + 1
  | [] => rfl
  | y :: ys => by
    unfold insertByDate
    split
    · rfl
    · simp [length_insertByDate x ys]

/-- Sorting by date does not change the number of logs. -/
theorem length_sortByDate : ∀ l : List ProgressLog, (sortByDate l).length = l.length
  | [] => rfl
  | x :: xs => by
    unfold sortByDate
    rw [length_insertByDate, length_sortByDate xs]
    rfl

/-- After `updateFirst` rewrites the first document matched by an
id-preserving function, `find?` on the same id returns the rewritten
document. -/
theorem find?_updateFirst (uid : String) (f : User → User)
    (hf : ∀ x, (f x).id = x.id) :
    ∀ (l : List User) (u : User), l.find? (fun x => x.id == uid) = some u →
      (updateFirst (fun x => x.id == uid) f l).find? (fun x => x.id == uid) = some (f u)
  | [], u, h => by simp [List.find?] at h
  | x :: xs, u, h => by
    by_cases hx : (x.id == uid) = true
    · rw [@List.find?_cons_of_pos User (fun y => y.id == uid) x xs hx] at h
      injection h with h'
      subst h'
      simp [updateFirst, hx, hf]
    · rw [@List.find?_cons_of_neg User (fun y => y.id == uid) x xs hx] at h
      have ih := find?_updateFirst uid f hf xs u h
      simp [updateFirst, hx, ih]

/-- Claim C1: after module evaluation the name `app` is bound to a second,
fresh FastAPI instance created after all registrations, so it exposes only
GET "/"; the /api routes, the CORS middleware and the shutdown hook were
registered on the earlier, discarded instance `app_before_rebind`. -/
theorem app_rebinding_discards_api_surface :
    app.routes = [⟨"GET", "/"⟩] ∧
    app.middlewares = [] ∧
    app.on_shutdown = [] ∧
    (api_router_routes.all (fun r => !(app.routes.contains r))) = true ∧
    (api_router_routes.all (fun r => app_before_rebind.routes.contains r)) = true ∧
    "CORSMiddleware" ∈ app_before_rebind.middlewares ∧
    "shutdown_db_client" ∈ app_before_rebind.on_shutdown := by
  decide

/-- Claim C4: for every stored user, GET /water/calculate returns
`daily_goal_ml = weight × 35` and `daily_goal_liters = round(ml/1000, 2)`. -/
theorem calculate_water_goal_spec (s : Store) (uid : String) (u : User)
    (hu : findUser s uid = some u) :
    (calculate_water_goal s uid).1 =
      Except.ok ⟨uid, u.weight * 35, roundTo 2 (u.weight * 35 / 1000)⟩ := by
  unfold calculate_water_goal
  rw [hu]

/-- Witness for C4: the spec's scenario, weight 80 → 2800 ml, 2.8 L. -/
theorem calculate_water_goal_spec_witness :
    findUser store80 "u2" = some user80 ∧
    (calculate_water_goal store80 "u2").1 = Except.ok ⟨"u2", 2800, 2.8⟩ := by
  refine ⟨by decide, ?_⟩
  rw [calculate_water_goal_spec store80 "u2" user80 (by decide)]
  decide

/-- Claim C5: for a user id absent from the users collection, GET /user,
GET /bmi, GET /water/calculate and GET /workouts all fail with 404 "User not
found" and return the store unchanged — no collection gains or loses a
record. -/
theorem missing_user_404 (s : Store) (uid : String)
    (h : findUser s uid = none) :
    get_user s uid = (Except.error ⟨404, "User not found"⟩, s) ∧
    calculate_bmi s uid = (Except.error ⟨404, "User not found"⟩, s) ∧
    calculate_water_goal s uid = (Except.error ⟨404, "User not found"⟩, s) ∧
    get_workouts s uid = (Except.error ⟨404, "User not found"⟩, s) := by
  refine ⟨?_, ?_, ?_, ?_⟩
  · unfold get_user; rw [h]
  · unfold calculate_bmi; rw [h]
  · unfold calculate_water_goal; rw [h]
  · unfold get_workouts; rw [h]

/-- Witness for C5: an unknown id against a nonempty store. -/
theorem missing_user_404_witness :
    findUser store70 "ghost" = none ∧
    (get_user store70 "ghost" = (Except.error ⟨404, "User not found"⟩, store70) ∧
     calculate_bmi store70 "ghost" = (Except.error ⟨404, "User not found"⟩, store70) ∧
     calculate_water_goal store70 "ghost" = (Except.error ⟨404, "User not found"⟩, store70) ∧
     get_workouts store70 "ghost" = (Except.error ⟨404, "User not found"⟩, store70)) :=
  ⟨by decide, missing_user_404 store70 "ghost" (by decide)⟩

/-- Claim C9: whatever index the random draw produces, GET /motivation
returns a message from the fixed pool, and the pool has exactly 10
entries. -/
theorem get_motivation_in_pool (i : Fin messages.length) :
    (get_motivation i).message ∈ messages ∧ messages.length = 10 :=
  ⟨List.get_mem messages i.1 i.2, rfl⟩

/-- Witness for C9 at a concrete draw. -/
theorem get_motivation_in_pool_witness :
    (get_motivation ⟨3, by decide⟩).message ∈ messages ∧ messages.length = 10 :=
  get_motivation_in_pool ⟨3, by decide⟩

/-- Claim C10: GET /water/{user_id} and GET /progress/{user_id} return at
most 1000 log entries — exactly `min 1000 (number of matching records)` —
so any records beyond the first 1000 matches are omitted (sorting does not
change the count). -/
theorem read_endpoints_cap_1000 (s : Store) (uid : String) (d : Option String)
    (today : String) :
    (get_water_logs s uid d today).1.length
        = min 1000 (s.water_logs.filter (waterMatch uid (d.getD today))).length ∧
    (get_water_logs s uid d today).1.length ≤ 1000 ∧
    (get_progress s uid).1.length
        = min 1000 (sortByDate (s.progress_logs.filter (fun l => l.user_id == uid))).length ∧
    (get_progress s uid).1.length ≤ 1000 ∧
    (sortByDate (s.progress_logs.filter (fun l => l.user_id == uid))).length
        = (s.progress_logs.filter (fun l => l.user_id == uid)).length := by
  refine ⟨?_, ?_, ?_, ?_, ?_⟩
  · simp [get_water_logs, List.length_take]
  · simp [get_water_logs, List.length_take_le]
  · simp [get_progress, List.length_take]
  · simp [get_progress, List.length_take_le]
  · exact length_sortByDate _

/-- Claim C2: for every stored user with positive height, GET /bmi returns
the BMI `weight / (height/100)²` rounded to 1 decimal, and the band is
selected from the unrounded value by half-open intervals with boundaries at
18.5, 25 and 30 (bands identified here by their colour tokens). -/
theorem calculate_bmi_formula_and_bands (s : Store) (uid : String) (u : User)
    (hu : findUser s uid = some u) (hh : 0 < u.height) :
    ∃ r : BmiResponse, (calculate_bmi s uid).1 = Except.ok r ∧
      r.bmi = roundTo 1 (u.weight / (u.height / 100) ^ 2) ∧
      (bmiOf u < 18.5 → r.color = "#3B82F6") ∧
      (18.5 ≤ bmiOf u ∧ bmiOf u < 25 → r.color = "#10B981") ∧
      (25 ≤ bmiOf u ∧ bmiOf u < 30 → r.color = "#F59E0B") ∧
      (30 ≤ bmiOf u → r.color = "#EF4444") := by
  refine ⟨⟨uid, roundTo 1 (bmiOf u),
      (if bmiOf u < 18.5 then (("Baixo peso" : String), ("#3B82F6" : String))
       else if 18.5 ≤ bmiOf u ∧ bmiOf u < 25 then ("Peso normal", "#10B981")
       else if 25 ≤ bmiOf u ∧ bmiOf u < 30 then ("Sobrepeso", "#F59E0B")
       else ("Obesidade", "#EF4444")).1,
      (if bmiOf u < 18.5 then (("Baixo peso" : String), ("#3B82F6" : String))
       else if 18.5 ≤ bmiOf u ∧ bmiOf u < 25 then ("Peso normal", "#10B981")
       else if 25 ≤ bmiOf u ∧ bmiOf u < 30 then ("Sobrepeso", "#F59E0B")
       else ("Obesidade", "#EF4444")).2⟩, ?_, rfl, ?_, ?_, ?_, ?_⟩
  · unfold calculate_bmi
    rw [hu]
  · intro hb
    dsimp only
    rw [if_pos hb]
  · intro hb
    dsimp only
    rw [if_neg (not_lt.mpr hb.1), if_pos hb]
  · intro hb
    dsimp only
    rw [if_neg (by push_neg; linarith [hb.1]),
        if_neg (by rintro ⟨-, h2⟩; linarith [hb.1]), if_pos hb]
  · intro hb
    dsimp only
    rw [if_neg (by push_neg; linarith),
        if_neg (by rintro ⟨-, h2⟩; linarith),
        if_neg (by rintro ⟨-, h2⟩; linarith)]

/-- Witness for C2 at the spec's scenario user (weight 70, height 175). -/
theorem calculate_bmi_formula_and_bands_witness :
    (findUser store70 "u1" = some user70 ∧ (0 : ℚ) < user70.height) ∧
    (∃ r : BmiResponse, (calculate_bmi store70 "u1").1 = Except.ok r ∧
      r.bmi = roundTo 1 (user70.weight / (user70.height / 100) ^ 2) ∧
      (bmiOf user70 < 18.5 → r.color = "#3B82F6") ∧
      (18.5 ≤ bmiOf user70 ∧ bmiOf user70 < 25 → r.color = "#10B981") ∧
      (25 ≤ bmiOf user70 ∧ bmiOf user70 < 30 → r.color = "#F59E0B") ∧
      (30 ≤ bmiOf user70 → r.color = "#EF4444")) :=
  ⟨⟨by decide, by decide⟩,
   calculate_bmi_formula_and_bands store70 "u1" user70 (by decide) (by decide)⟩

/-- Counterexample to C3 as stated: at the claim's own scenario input
(weight 70, height 175) the handler returns bmi 22.9 but the status string
is the Portuguese "Peso normal", not "Normal weight". -/
theorem bmi_status_portuguese_counterexample :
    ∃ r : BmiResponse, (calculate_bmi store70 "u1").1 = Except.ok r ∧
      r.bmi = 22.9 ∧ r.status = "Peso normal" ∧ r.status ≠ "Normal weight" :=
  ⟨⟨"u1", 22.9, "Peso normal", "#10B981"⟩, by decide, rfl, rfl, by decide⟩

/-- Claim C3 (amended): the status labels follow the claimed half-open bands
on the unrounded BMI, but are the Portuguese strings of the source: "Baixo
peso", "Peso normal", "Sobrepeso", "Obesidade". -/
theorem calculate_bmi_status_labels (s : Store) (uid : String) (u : User)
    (hu : findUser s uid = some u) (hh : 0 < u.height) :
    ∃ r : BmiResponse, (calculate_bmi s uid).1 = Except.ok r ∧
      r.bmi = roundTo 1 (bmiOf u) ∧
      (bmiOf u < 18.5 → r.status = "Baixo peso") ∧
      (18.5 ≤ bmiOf u ∧ bmiOf u < 25 → r.status = "Peso normal") ∧
      (25 ≤ bmiOf u ∧ bmiOf u < 30 → r.status = "Sobrepeso") ∧
      (30 ≤ bmiOf u → r.status = "Obesidade") := by
  refine ⟨⟨uid, roundTo 1 (bmiOf u),
      (if bmiOf u < 18.5 then (("Baixo peso" : String), ("#3B82F6" : String))
       else if 18.5 ≤ bmiOf u ∧ bmiOf u < 25 then ("Peso normal", "#10B981")
       else if 25 ≤ bmiOf u ∧ bmiOf u < 30 then ("Sobrepeso", "#F59E0B")
       else ("Obesidade", "#EF4444")).1,
      (if bmiOf u < 18.5 then (("Baixo peso" : String), ("#3B82F6" : String))
       else if 18.5 ≤ bmiOf u ∧ bmiOf u < 25 then ("Peso normal", "#10B981")
       else if 25 ≤ bmiOf u ∧ bmiOf u < 30 then ("Sobrepeso", "#F59E0B")
       else ("Obesidade", "#EF4444")).2⟩, ?_, rfl, ?_, ?_, ?_, ?_⟩
  · unfold calculate_bmi
    rw [hu]
  · intro hb
    dsimp only
    rw [if_pos hb]
  · intro hb
    dsimp only
    rw [if_neg (not_lt.mpr hb.1), if_pos hb]
  · intro hb
    dsimp only
    rw [if_neg (by push_neg; linarith [hb.1]),
        if_neg (by rintro ⟨-, h2⟩; linarith [hb.1]), if_pos hb]
  · intro hb
    dsimp only
    rw [if_neg (by push_neg; linarith),
        if_neg (by rintro ⟨-, h2⟩; linarith),
        if_neg (by rintro ⟨-, h2⟩; linarith)]

/-- Witness for the amended C3: the scenario user receives bmi 22.9 and
status "Peso normal". -/
theorem calculate_bmi_status_labels_witness :
    (findUser store70 "u1" = some user70 ∧ (0 : ℚ) < user70.height ∧
     (calculate_bmi store70 "u1").1
        = Except.ok ⟨"u1", 22.9, "Peso normal", "#10B981"⟩) ∧
    (∃ r : BmiResponse, (calculate_bmi store70 "u1").1 = Except.ok r ∧
      r.bmi = roundTo 1 (bmiOf user70) ∧
      (bmiOf user70 < 18.5 → r.status = "Baixo peso") ∧
      (18.5 ≤ bmiOf user70 ∧ bmiOf user70 < 25 → r.status = "Peso normal") ∧
      (25 ≤ bmiOf user70 ∧ bmiOf user70 < 30 → r.status = "Sobrepeso") ∧
      (30 ≤ bmiOf user70 → r.status = "Obesidade")) :=
  ⟨⟨by decide, by decide, by decide⟩,
   calculate_bmi_status_labels store70 "u1" user70 (by decide) (by decide)⟩

/-- Claim C6: PUT /user/{id} on an existing user replaces exactly the seven
mutable fields with the request body, keeps `id` and `created_at` as
stored, returns the post-update stored document, and touches no other
collection. -/
theorem update_user_replaces_mutable_fields (s : Store) (uid : String)
    (inp : UserCreate) (u : User) (h : findUser s uid = some u) :
    (update_user s uid inp).1 = Except.ok (applyUpdate u inp) ∧
    (applyUpdate u inp).id = u.id ∧
    (applyUpdate u inp).created_at = u.created_at ∧
    (applyUpdate u inp).name = inp.name ∧
    (applyUpdate u inp).age = inp.age ∧
    (applyUpdate u inp).weight = inp.weight ∧
    (applyUpdate u inp).height = inp.height ∧
    (applyUpdate u inp).sex = inp.sex ∧
    (applyUpdate u inp).gym_attendance = inp.gym_attendance ∧
    (applyUpdate u inp).goal_weight = inp.goal_weight ∧
    (update_user s uid inp).2.users
      = updateFirst (fun x => x.id == uid) (fun x => applyUpdate x inp) s.users ∧
    (update_user s uid inp).2.water_logs = s.water_logs ∧
    (update_user s uid inp).2.progress_logs = s.progress_logs := by
  have h' : s.users.find? (fun x => x.id == uid) = some u := h
  have hfind := find?_updateFirst uid (fun x => applyUpdate x inp)
    (fun x => rfl) s.users u h'
  have key : update_user s uid inp =
      (Except.ok (applyUpdate u inp),
       { s with users := updateFirst (fun x => x.id == uid)
                  (fun x => applyUpdate x inp) s.users }) := by
    unfold update_user
    rw [h]
    dsimp only
    rw [hfind]
  exact ⟨by rw [key], rfl, rfl, rfl, rfl, rfl, rfl, rfl, rfl, rfl,
    by rw [key], by rw [key], by rw [key]⟩

/-- The request body of the C6 witness. -/
def inpB : UserCreate := ⟨"Bruna", 29, 82, 181, "feminino", true, some 74⟩

/-- The document expected after updating `user80` with `inpB`. -/
def userB : User :=
  ⟨"u2", "Bruna", 29, 82, 181, "feminino", true, some 74, "2026-01-02T00:00:00+00:00"⟩

/-- Witness for C6 at a concrete store and request body. -/
theorem update_user_replaces_mutable_fields_witness :
    findUser store80 "u2" = some user80 ∧
    (update_user store80 "u2" inpB).1 = Except.ok userB ∧
    userB.id = user80.id ∧
    userB.created_at = user80.created_at ∧
    (update_user store80 "u2" inpB).2.users = [userB] ∧
    (update_user store80 "u2" inpB).2.water_logs = [] ∧
    (update_user store80 "u2" inpB).2.progress_logs = [] := by
  obtain ⟨h1, -, -, -, -, -, -, -, -, -, h11, h12, h13⟩ :=
    update_user_replaces_mutable_fields store80 "u2" inpB user80 (by decide)
  refine ⟨by decide, ?_, by decide, by decide, ?_, ?_, ?_⟩
  · rw [h1]; decide
  · rw [h11]; decide
  · rw [h12]; decide
  · rw [h13]; decide

/-- Claim C7: the workout plan depends only on the resolved user's
`gym_attendance` boolean — two successful calls against any stores and any
users agreeing on that flag return identical responses. -/
theorem get_workouts_pure_in_gym_attendance (s₁ s₂ : Store)
    (uid₁ uid₂ : String) (u₁ u₂ : User)
    (h₁ : findUser s₁ uid₁ = some u₁) (h₂ : findUser s₂ uid₂ = some u₂)
    (hg : u₁.gym_attendance = u₂.gym_attendance) :
    (get_workouts s₁ uid₁).1 = (get_workouts s₂ uid₂).1 := by
  unfold get_workouts
  rw [h₁, h₂]
  dsimp only
  rw [hg]

/-- A third fixture user sharing only `gym_attendance` with `user70`, in a
store that also holds unrelated water logs. -/
def userC : User := ⟨"c", "Carla", 22, 55, 160, "feminino", true, none, "t3"⟩

/-- Fixture store for the C7 witness. -/
def storeC : Store := ⟨[userC], [⟨"w1", "c", 100, "2026-01-01", "t"⟩], []⟩

/-- Witness for C7: two users differing in every field but the flag, in
stores with different log contents, get the same plan. -/
theorem get_workouts_pure_witness :
    (findUser store70 "u1" = some user70 ∧ findUser storeC "c" = some userC ∧
     user70.gym_attendance = userC.gym_attendance) ∧
    (get_workouts store70 "u1").1 = (get_workouts storeC "c").1 :=
  ⟨⟨by decide, by decide, by decide⟩,
   get_workouts_pure_in_gym_attendance store70 storeC "u1" "c" user70 userC
     (by decide) (by decide) (by decide)⟩

/-- Claim C8 (amended): if at most 998 water logs for (user, today) are
stored, two POST /water calls for that user followed by GET /water with no
date return exactly the old list with the two new entries appended — so two
more matching entries, both present; creation is append-only and not
idempotent. -/
theorem log_water_twice_appends (s : Store) (uid : String) (a₁ a₂ : ℚ)
    (today id₁ id₂ ts₁ ts₂ : String)
    (hroom : (s.water_logs.filter (waterMatch uid today)).length ≤ 998) :
    (get_water_logs (log_water (log_water s ⟨uid, a₁⟩ today id₁ ts₁).2 ⟨uid, a₂⟩ today id₂ ts₂).2 uid none today).1
      = (get_water_logs s uid none today).1
        ++ [(log_water s ⟨uid, a₁⟩ today id₁ ts₁).1,
            (log_water (log_water s ⟨uid, a₁⟩ today id₁ ts₁).2 ⟨uid, a₂⟩ today id₂ ts₂).1] ∧
    (get_water_logs (log_water (log_water s ⟨uid, a₁⟩ today id₁ ts₁).2 ⟨uid, a₂⟩ today id₂ ts₂).2 uid none today).1.length
      = (get_water_logs s uid none today).1.length + 2 ∧
    (log_water s ⟨uid, a₁⟩ today id₁ ts₁).1
      ∈ (get_water_logs (log_water (log_water s ⟨uid, a₁⟩ today id₁ ts₁).2 ⟨uid, a₂⟩ today id₂ ts₂).2 uid none today).1 ∧
    (log_water (log_water s ⟨uid, a₁⟩ today id₁ ts₁).2 ⟨uid, a₂⟩ today id₂ ts₂).1
      ∈ (get_water_logs (log_water (log_water s ⟨uid, a₁⟩ today id₁ ts₁).2 ⟨uid, a₂⟩ today id₂ ts₂).2 uid none today).1 := by
  have e₁ : (log_water s ⟨uid, a₁⟩ today id₁ ts₁).1
      = (⟨id₁, uid, a₁, today, ts₁⟩ : WaterLog) := rfl
  have e₂ : (log_water (log_water s ⟨uid, a₁⟩ today id₁ ts₁).2 ⟨uid, a₂⟩ today id₂ ts₂).1
      = (⟨id₂, uid, a₂, today, ts₂⟩ : WaterLog) := rfl
  have es : (log_water (log_water s ⟨uid, a₁⟩ today id₁ ts₁).2 ⟨uid, a₂⟩ today id₂ ts₂).2.water_logs
      = s.water_logs ++ [(⟨id₁, uid, a₁, today, ts₁⟩ : WaterLog)] ++ [(⟨id₂, uid, a₂, today, ts₂⟩ : WaterLog)] := rfl
  have hm₁ : waterMatch uid today (⟨id₁, uid, a₁, today, ts₁⟩ : WaterLog) = true := by
    simp [waterMatch]
  have hm₂ : waterMatch uid today (⟨id₂, uid, a₂, today, ts₂⟩ : WaterLog) = true := by
    simp [waterMatch]
  have eg : ∀ S : Store, (get_water_logs S uid none today).1
      = (S.water_logs.filter (waterMatch uid today)).take 1000 := fun S => rfl
  have hfil : (s.water_logs ++ [(⟨id₁, uid, a₁, today, ts₁⟩ : WaterLog)] ++ [(⟨id₂, uid, a₂, today, ts₂⟩ : WaterLog)]).filter (waterMatch uid today)
      = s.water_logs.filter (waterMatch uid today)
        ++ [(⟨id₁, uid, a₁, today, ts₁⟩ : WaterLog), (⟨id₂, uid, a₂, today, ts₂⟩ : WaterLog)] := by
    rw [List.append_assoc, List.filter_append]
    congr 1
    simp [List.filter_cons, hm₁, hm₂]
  have htake_all : (s.water_logs.filter (waterMatch uid today)
        ++ [(⟨id₁, uid, a₁, today, ts₁⟩ : WaterLog), (⟨id₂, uid, a₂, today, ts₂⟩ : WaterLog)]).take 1000
      = s.water_logs.filter (waterMatch uid today)
        ++ [(⟨id₁, uid, a₁, today, ts₁⟩ : WaterLog), (⟨id₂, uid, a₂, today, ts₂⟩ : WaterLog)] := by
    refine List.take_of_length_le ?_
    rw [List.length_append]
    simp only [List.length_cons, List.length_nil]
    omega
  have htake_old : (s.water_logs.filter (waterMatch uid today)).take 1000
      = s.water_logs.filter (waterMatch uid today) :=
    List.take_of_length_le (by omega)
  have main : (get_water_logs (log_water (log_water s ⟨uid, a₁⟩ today id₁ ts₁).2 ⟨uid, a₂⟩ today id₂ ts₂).2 uid none today).1
      = (get_water_logs s uid none today).1
        ++ [(⟨id₁, uid, a₁, today, ts₁⟩ : WaterLog), (⟨id₂, uid, a₂, today, ts₂⟩ : WaterLog)] := by
    rw [eg, eg, es, hfil, htake_all, htake_old]
  refine ⟨?_, ?_, ?_, ?_⟩
  · rw [main, e₁, e₂]
  · rw [main]
    simp
  · rw [main, e₁]
    simp
  · rw [main, e₂]
    simp

/-- Witness for the amended C8: two posts against the empty store. -/
theorem log_water_twice_appends_witness :
    (emptyStore.water_logs.filter (waterMatch "u" "2026-02-03")).length ≤ 998 ∧
    (get_water_logs (log_water (log_water emptyStore ⟨"u", 250⟩ "2026-02-03" "wA" "tA").2 ⟨"u", 300⟩ "2026-02-03" "wB" "tB").2 "u" none "2026-02-03").1
      = (get_water_logs emptyStore "u" none "2026-02-03").1
        ++ [(log_water emptyStore ⟨"u", 250⟩ "2026-02-03" "wA" "tA").1,
            (log_water (log_water emptyStore ⟨"u", 250⟩ "2026-02-03" "wA" "tA").2 ⟨"u", 300⟩ "2026-02-03" "wB" "tB").1] :=
  ⟨by decide,
   (log_water_twice_appends emptyStore "u" 250 300 "2026-02-03" "wA" "wB" "tA" "tB"
     (by decide)).1⟩

/-- A water log already matching (user "u", date "2026-01-01"). -/
def floodLog : WaterLog := ⟨"w0", "u", 500, "2026-01-01", "t0"⟩

/-- A store whose water collection already holds 1000 logs matching the
query of the C8 scenario. -/
def floodStore : Store := ⟨[], List.replicate 1000 floodLog, []⟩

/-- Counterexample to C8 as stated ("starting from any store state"): with
1000 matching logs already stored, two POSTs for the same user and day are
followed by a GET that still returns 1000 entries — not two more — and the
second newly created entry is missing from the response, because
`to_list(1000)` drops everything beyond the first 1000 matches. -/
theorem log_water_twice_cap_counterexample :
    (get_water_logs (log_water (log_water floodStore ⟨"u", 250⟩ "2026-01-01" "wA" "tA").2 ⟨"u", 300⟩ "2026-01-01" "wB" "tB").2 "u" none "2026-01-01").1.length
      = (get_water_logs floodStore "u" none "2026-01-01").1.length ∧
    (log_water (log_water floodStore ⟨"u", 250⟩ "2026-01-01" "wA" "tA").2 ⟨"u", 300⟩ "2026-01-01" "wB" "tB").1
      ∉ (get_water_logs (log_water (log_water floodStore ⟨"u", 250⟩ "2026-01-01" "wA" "tA").2 ⟨"u", 300⟩ "2026-01-01" "wB" "tB").2 "u" none "2026-01-01").1 := by
  have ewB : (log_water (log_water floodStore ⟨"u", 250⟩ "2026-01-01" "wA" "tA").2 ⟨"u", 300⟩ "2026-01-01" "wB" "tB").1
      = (⟨"wB", "u", 300, "2026-01-01", "tB"⟩ : WaterLog) := rfl
  have es : (log_water (log_water floodStore ⟨"u", 250⟩ "2026-01-01" "wA" "tA").2 ⟨"u", 300⟩ "2026-01-01" "wB" "tB").2.water_logs
      = List.replicate 1000 floodLog
        ++ [(⟨"wA", "u", 250, "2026-01-01", "tA"⟩ : WaterLog)] ++ [(⟨"wB", "u", 300, "2026-01-01", "tB"⟩ : WaterLog)] := rfl
  have hfr : (List.replicate 1000 floodLog).filter (waterMatch "u" "2026-01-01")
      = List.replicate 1000 floodLog :=
    List.filter_eq_self.mpr (fun a ha => by
      rw [(List.mem_replicate.mp ha).2]
      decide)
  have eg : ∀ S : Store, (get_water_logs S "u" none "2026-01-01").1
      = (S.water_logs.filter (waterMatch "u" "2026-01-01")).take 1000 := fun S => rfl
  have hfil : ((List.replicate 1000 floodLog
        ++ [(⟨"wA", "u", 250, "2026-01-01", "tA"⟩ : WaterLog)] ++ [(⟨"wB", "u", 300, "2026-01-01", "tB"⟩ : WaterLog)]).filter (waterMatch "u" "2026-01-01"))
      = List.replicate 1000 floodLog
        ++ [(⟨"wA", "u", 250, "2026-01-01", "tA"⟩ : WaterLog), (⟨"wB", "u", 300, "2026-01-01", "tB"⟩ : WaterLog)] := by
    rw [List.append_assoc, List.filter_append, hfr]
    congr 1
  have htake : (List.replicate 1000 floodLog
        ++ [(⟨"wA", "u", 250, "2026-01-01", "tA"⟩ : WaterLog), (⟨"wB", "u", 300, "2026-01-01", "tB"⟩ : WaterLog)]).take 1000
      = List.replicate 1000 floodLog :=
    List.take_left' (by rw [List.length_replicate])
  have eg2 : (get_water_logs (log_water (log_water floodStore ⟨"u", 250⟩ "2026-01-01" "wA" "tA").2 ⟨"u", 300⟩ "2026-01-01" "wB" "tB").2 "u" none "2026-01-01").1
      = List.replicate 1000 floodLog := by
    rw [eg, es, hfil, htake]
  have eg0 : (get_water_logs floodStore "u" none "2026-01-01").1
      = List.replicate 1000 floodLog := by
    rw [eg]
    show ((List.replicate 1000 floodLog).filter (waterMatch "u" "2026-01-01")).take 1000 = _
    rw [hfr]
    exact List.take_of_length_le (by rw [List.length_replicate])
  constructor
  · rw [eg2, eg0]
  · rw [eg2, ewB]
    intro hmem
    have hEq := (List.mem_replicate.mp hmem).2
    exact absurd hEq (by decide)

end MeuApp
